import Mathlib

/-!
Verification of the secretsManagerAPI repository: a shallow embedding of the
token codec (internal/auth), the Kubernetes-backed resource client
(internal/k8s) and the HTTP handlers (internal/handlers), together with
theorems settling the specification claims about them.

Modelling conventions:
* Go maps become Lean functions with Option results.
* The Kubernetes backend is modelled as an explicit cluster state; each API
  call optionally takes a Boolean fault flag injecting a transient backend
  failure (any real call can fail transiently), and otherwise follows the
  documented Kubernetes semantics, including the merge of a submitted
  stringData field into the stored data field of a Secret object.
* The asynchronous namespace lifecycle (create-and-await-active in
  CreateNamespace, delete-and-await-gone in DeleteNamespace) is modelled at
  poll granularity against an environment trace, with the source constants:
  10 s deadline at 200 ms interval = 50 polls for create, 30 s at 200 ms
  interval = 150 polls for delete.
* bcrypt and HMAC signatures are modelled symbolically (a perfect, injective
  one-way function), which is faithful for every claim treated here: none
  depends on collisions of the real primitives.
-/

namespace SecretsAPI

/-- Payload of a Kubernetes secret: a finite string-to-string map, modelled as
a partial function, mirroring the Go type used throughout the repository. -/
abbrev SecretData := String → Option String

/-- Single-entry update, mirroring a Go map assignment. -/
def setKey (d : SecretData) (k v : String) : SecretData :=
  fun x => if x = k then some v else d x

/-- The empty payload. -/
def emptyData : SecretData := fun _ => none

/-- Kubernetes API-server semantics for writing a Secret object: the submitted
stringData entries are merged into the data field, stringData taking
precedence; keys present only in data survive the write. -/
def mergeStringData (dat strData : SecretData) : SecretData :=
  fun k =>
    match strData k with
    | some v => some v
    | none => dat k

/-- Backend cluster state as seen through the client: which namespaces exist,
and the stored data of each secret, keyed by namespace and secret name. -/
structure Cluster where
  nsExists : String → Bool
  secrets : String → String → Option SecretData

/-- Pointwise update of the secret table at one namespace-and-name key. -/
def Cluster.setSecret (c : Cluster) (ns name : String) (v : Option SecretData) :
    Cluster :=
  { c with
    secrets := fun n2 s2 =>
      if n2 = ns ∧ s2 = name then v else c.secrets n2 s2 }

/-- Error classes the backend distinguishes (k8s.io apimachinery reasons that
the repository inspects, plus transient for any other failure). -/
inductive K8sError
  | alreadyExists
  | notFound
  | transient
deriving DecidableEq

/-- Rendering of a backend error, standing for the Go err.Error() text. -/
def errString : K8sError → String
  | .alreadyExists => "already exists"
  | .notFound => "not found"
  | .transient => "transient backend failure"

namespace Client

/-- Embeds Client.CreateSecret (internal/k8s): submits a new Secret whose
stringData is the given map; the API server refuses a taken name with
AlreadyExists.  The fault flag injects a transient failure of the one call. -/
def CreateSecret (fault : Bool) (c : Cluster) (ns name : String)
    (data : SecretData) : Except K8sError Cluster :=
  if fault then .error .transient
  else
    match c.secrets ns name with
    | some _ => .error .alreadyExists
    | none => .ok (c.setSecret ns name (some (mergeStringData emptyData data)))

/-- Embeds Client.GetSecret: reads the stored data of a secret, converting it
to a string map; absent secrets yield NotFound. -/
def GetSecret (fault : Bool) (c : Cluster) (ns name : String) :
    Except K8sError SecretData :=
  if fault then .error .transient
  else
    match c.secrets ns name with
    | none => .error .notFound
    | some d => .ok d

/-- Embeds Client.UpdateSecret: Get the current object, set its stringData to
the new values, and Update.  The API server merges the submitted stringData
into the objects data field, so keys absent from values survive.  Two fault
flags cover the two API calls made. -/
def UpdateSecret (f1 f2 : Bool) (c : Cluster) (ns name : String)
    (values : SecretData) : Except K8sError Cluster :=
  if f1 then .error .transient
  else
    match c.secrets ns name with
    | none => .error .notFound
    | some old =>
        if f2 then .error .transient
        else .ok (c.setSecret ns name (some (mergeStringData old values)))

/-- Embeds Client.DeleteSecret: delete the object; deleting an absent secret
surfaces the backend NotFound error (the source wraps every error). -/
def DeleteSecret (fault : Bool) (c : Cluster) (ns name : String) :
    Except K8sError Cluster :=
  if fault then .error .transient
  else
    match c.secrets ns name with
    | none => .error .notFound
    | some _ => .ok (c.setSecret ns name none)

/-- Net state effect of Client.CreateNamespace: a backend AlreadyExists is
swallowed and treated as success, otherwise the namespace is created.  The
await-active polling detail of the same source function is modelled
separately at poll granularity below. -/
def CreateNamespace (fault : Bool) (c : Cluster) (name : String) :
    Except K8sError Cluster :=
  if fault then .error .transient
  else if c.nsExists name then .ok c
  else
    .ok { c with
      nsExists := fun n2 => if n2 = name then true else c.nsExists n2 }

end Client

/-- Symbolic model of bcrypt.GenerateFromPassword: a perfect one-way digest. -/
def bcryptHash (pw : String) : String := "bcrypt-" ++ pw

/-- bcrypt.CompareHashAndPassword succeeds exactly when the digest matches. -/
def bcryptCheck (digest pw : String) : Bool := digest = bcryptHash pw

/-- An HTTP response as the handlers produce it: status code and body text. -/
structure HttpResp where
  status : Nat
  body : String
deriving DecidableEq

namespace UserHandler

/-- Embeds UserHandler.Register: derive the namespace from the request
username, create it, hash the password, and store the credentials secret.
Fault flags cover the namespace-create call and the secret-create call. -/
def Register (username password : String) (f1 f2 : Bool) (c : Cluster) :
    HttpResp × Cluster :=
  match Client.CreateNamespace f1 c ("user-" ++ username) with
  | .error e => (⟨500, "Failed to create namespace: " ++ errString e⟩, c)
  | .ok c1 =>
      let digest := bcryptHash password
      let creds := setKey (setKey emptyData "username" username) "password" digest
      match Client.CreateSecret f2 c1 ("user-" ++ username) "credentials" creds with
      | .error e => (⟨500, "Failed to store credentials: " ++ errString e⟩, c1)
      | .ok c2 => (⟨201, "User registered successfully"⟩, c2)

/-- Embeds UserHandler.Login: read the credentials secret of the namespace
derived from the request username, compare the bcrypt hash, and answer.  The
two failure paths return their distinct source message texts. -/
def Login (username password : String) (fault : Bool) (c : Cluster) : HttpResp :=
  match Client.GetSecret fault c ("user-" ++ username) "credentials" with
  | .error _ => ⟨401, "User does not exist"⟩
  | .ok secretData =>
      match secretData "password" with
      | none => ⟨500, "Credentials not found"⟩
      | some storedHash =>
          if bcryptCheck storedHash password then ⟨200, "Login successful"⟩
          else ⟨401, "Invalid username or password"⟩

/-- Embeds UserHandler.ChangeUserPassword: read the credentials secret of the
namespace derived from the context username, overwrite its password entry with
the new bcrypt digest when a new password was supplied, and write the whole
map back through Client.UpdateSecret. -/
def ChangeUserPassword (currentUsername newPassword : String)
    (fGet fU1 fU2 : Bool) (c : Cluster) : HttpResp × Cluster :=
  match Client.GetSecret fGet c ("user-" ++ currentUsername) "credentials" with
  | .error e => (⟨500, "Failed to get current credentials: " ++ errString e⟩, c)
  | .ok secretData0 =>
      let secretData :=
        if newPassword ≠ "" then
          setKey secretData0 "password" (bcryptHash newPassword)
        else secretData0
      match Client.UpdateSecret fU1 fU2 c ("user-" ++ currentUsername)
          "credentials" secretData with
      | .error e => (⟨500, "Failed to update credentials: " ++ errString e⟩, c)
      | .ok c2 => (⟨200, "User details updated successfully"⟩, c2)

end UserHandler

/-- Responses of the four secret CRUD handlers. -/
inductive SecretResp
  | created (name : String) (data : SecretData)
  | fetched (name : String) (data : SecretData)
  | updated (name : String) (data : SecretData)
  | deleted
  | err (status : Nat) (msg : String)

namespace SecretsHandler

/-- Embeds SecretsHandler.CreateSecret on the authenticated path: the
namespace is derived from the context username placed there by
JWTMiddleware; the secret name and data come from the request body. -/
def CreateSecret (username name : String) (data : SecretData) (fault : Bool)
    (c : Cluster) : SecretResp × Cluster :=
  match Client.CreateSecret fault c ("user-" ++ username) name data with
  | .error e => (.err 500 ("failed to create secret: " ++ errString e), c)
  | .ok c2 => (.created name data, c2)

/-- Embeds SecretsHandler.GetSecret on the authenticated path: NotFound maps
to 404, any other backend error to 500. -/
def GetSecret (username secretName : String) (fault : Bool) (c : Cluster) :
    SecretResp × Cluster :=
  match Client.GetSecret fault c ("user-" ++ username) secretName with
  | .error .notFound => (.err 404 "Secret not found in your namespace", c)
  | .error e => (.err 500 ("failed to get secret: " ++ errString e), c)
  | .ok d => (.fetched secretName d, c)

/-- Embeds SecretsHandler.UpdateSecret on the authenticated path. -/
def UpdateSecret (username secretName : String) (data : SecretData)
    (f1 f2 : Bool) (c : Cluster) : SecretResp × Cluster :=
  match Client.UpdateSecret f1 f2 c ("user-" ++ username) secretName data with
  | .error e => (.err 500 ("failed to update secret: " ++ errString e), c)
  | .ok c2 => (.updated secretName data, c2)

/-- Embeds SecretsHandler.DeleteSecret on the authenticated path. -/
def DeleteSecret (username secretName : String) (fault : Bool) (c : Cluster) :
    SecretResp × Cluster :=
  match Client.DeleteSecret fault c ("user-" ++ username) secretName with
  | .error e => (.err 500 ("failed to delete secret: " ++ errString e), c)
  | .ok c2 => (.deleted, c2)

end SecretsHandler

/-- One secret operation performed with a verified token: the client supplies
the secret name and data, never the namespace. -/
inductive SecretOp
  | create (name : String) (data : SecretData)
  | get (name : String)
  | update (name : String) (data : SecretData)
  | delete (name : String)

/-- Dispatch one secret operation as the verified identity u; the pair of
fault flags feeds the one or two backend calls of the handler. -/
def runSecretOp (u : String) (op : SecretOp) (f : Bool × Bool) (c : Cluster) :
    SecretResp × Cluster :=
  match op with
  | .create name data => SecretsHandler.CreateSecret u name data f.1 c
  | .get name => SecretsHandler.GetSecret u name f.1 c
  | .update name data => SecretsHandler.UpdateSecret u name data f.1 f.2 c
  | .delete name => SecretsHandler.DeleteSecret u name f.1 c

/-- Run a sequence of secret operations as the verified identity u, collecting
the responses and threading the cluster state. -/
def runSecretOps (u : String) :
    List (SecretOp × (Bool × Bool)) → Cluster → List SecretResp × Cluster
  | [], c => ([], c)
  | (op, f) :: rest, c =>
      let r := runSecretOp u op f c
      let rs := runSecretOps u rest r.2
      (r.1 :: rs.1, rs.2)

/-! ### Token codec (internal/auth, golang-jwt v5) -/

/-- Signing algorithms relevant to the Verify check: the three HMAC family
members plus representatives of the non-HMAC families. -/
inductive Alg
  | HS256
  | HS384
  | HS512
  | RS256
  | algNone
deriving DecidableEq

/-- The keyfunc check in JWTManager.Verify asserts membership in the HMAC
family, not equality with the algorithm Generate uses. -/
def Alg.isHMAC : Alg → Bool
  | .HS256 => true
  | .HS384 => true
  | .HS512 => true
  | .RS256 => false
  | .algNone => false

/-- The claims the repository places in a token. -/
structure Claims where
  username : String
  expiresAt : Nat
  issuedAt : Nat
deriving DecidableEq

/-- Symbolic MAC: a signature records exactly the algorithm, key and payload
it was produced over (a perfect, unforgeable MAC). -/
inductive Sig
  | mac (alg : Alg) (key : String) (payload : Claims)
deriving DecidableEq

/-- A serialized token: header algorithm, payload claims, signature. -/
structure Token where
  alg : Alg
  claims : Claims
  sig : Sig
deriving DecidableEq

/-- Producing a signed token over the given algorithm and key. -/
def signToken (alg : Alg) (key : String) (claims : Claims) : Token :=
  ⟨alg, claims, .mac alg key claims⟩

/-- Embeds auth.JWTManager: the shared secret key and the token duration. -/
structure JWTManager where
  SecretKey : String
  TokenDuration : Nat

/-- Embeds JWTManager.Generate: HS256 claims with issuedAt now and expiry at
now plus the configured duration, signed with the shared key. -/
def JWTManager.Generate (j : JWTManager) (username : String) (now : Nat) :
    Token :=
  signToken .HS256 j.SecretKey ⟨username, now + j.TokenDuration, now⟩

/-- Verification failures distinguished by the embedding. -/
inductive JwtError
  | unexpectedSigningMethod
  | invalidSignature
  | expired
deriving DecidableEq

/-- Embeds JWTManager.Verify via jwt.ParseWithClaims: the keyfunc rejects any
method outside the HMAC family, the signature is checked under the token
header algorithm with the shared key, and the expiry claim is validated
against the current time (valid while now is before expiresAt). -/
def JWTManager.Verify (j : JWTManager) (tok : Token) (now : Nat) :
    Except JwtError Claims :=
  if tok.alg.isHMAC then
    if tok.sig = Sig.mac tok.alg j.SecretKey tok.claims then
      if now < tok.claims.expiresAt then .ok tok.claims
      else .error .expired
    else .error .invalidSignature
  else .error .unexpectedSigningMethod

/-! ### Namespace lifecycle at poll granularity (internal/k8s) -/

/-- Observable phase of a namespace. -/
inductive NsPhase
  | active
  | terminating
deriving DecidableEq

/-- Environment of one CreateNamespace call: whether the initial create is
refused with AlreadyExists, and what each status poll would observe
(none meaning NotFound). -/
structure CreateNsWorld where
  alreadyExists : Bool
  phase : Nat → Option NsPhase

/-- Outcome of an await loop. -/
inductive AwaitResult
  | ok
  | timedOut
deriving DecidableEq

/-- The create-side poll loop: up to fuel polls starting at index i; returns
the outcome and the total number of polls performed. -/
def createPollLoop (w : CreateNsWorld) : Nat → Nat → AwaitResult × Nat
  | i, 0 => (.timedOut, i)
  | i, fuel + 1 =>
      match w.phase i with
      | some .active => (.ok, i + 1)
      | _ => createPollLoop w (i + 1) fuel

namespace Poll

/-- Embeds Client.CreateNamespace at poll granularity: when the backend
refuses the create with AlreadyExists the function returns success at once,
performing zero status polls; otherwise it polls the namespace phase with a
10 second deadline at a 200 ms interval, giving 50 polls, and reports a
timeout error if the namespace was never observed active. -/
def CreateNamespace (w : CreateNsWorld) : AwaitResult × Nat :=
  if w.alreadyExists then (.ok, 0) else createPollLoop w 0 50

end Poll

/-- Environment of one DeleteNamespace call: whether the initial delete is
refused with NotFound, and whether each poll still observes the namespace. -/
structure DeleteNsWorld where
  deleteNotFound : Bool
  present : Nat → Bool

/-- The delete-side poll loop: up to fuel polls starting at index i; returns
the outcome and the total number of polls performed. -/
def deletePollLoop (w : DeleteNsWorld) : Nat → Nat → AwaitResult × Nat
  | i, 0 => (.timedOut, i)
  | i, fuel + 1 =>
      if w.present i then deletePollLoop w (i + 1) fuel else (.ok, i + 1)

namespace Poll

/-- Embeds Client.DeleteNamespace at poll granularity: a NotFound on the
delete call is success with zero polls; otherwise the namespace is polled
with a 30 second deadline at a 200 ms interval, giving 150 polls, and the
stuck-resource error is returned when it never disappeared.  The source
contains no finalizer handling and no second polling window. -/
def DeleteNamespace (w : DeleteNsWorld) : AwaitResult × Nat :=
  if w.deleteNotFound then (.ok, 0) else deletePollLoop w 0 150

end Poll

/-! ### Concrete inputs used by counterexamples and witnesses -/

/-- Credentials record of a registered user alice with password pw. -/
def aliceRecord : SecretData :=
  setKey (setKey emptyData "username" "alice") "password" (bcryptHash "pw")

/-- Cluster holding exactly the registered user alice. -/
def aliceCluster : Cluster :=
  ⟨fun n => n == "user-alice",
   fun ns n =>
     if ns = "user-alice" ∧ n = "credentials" then some aliceRecord else none⟩

/-- Empty cluster: no namespaces, no secrets. -/
def absentCluster : Cluster := ⟨fun _ => false, fun _ _ => none⟩

/-- A credentials record whose stored username is bob. -/
def bobRecord : SecretData :=
  setKey (setKey emptyData "username" "bob") "password" (bcryptHash "bobpw")

/-- Cluster where the scope user-alice already holds a credentials record
whose stored identity is bob, not alice. -/
def reusedCluster : Cluster :=
  ⟨fun n => n == "user-alice",
   fun ns n =>
     if ns = "user-alice" ∧ n = "credentials" then some bobRecord else none⟩

/-- Previous contents of a secret: two keys a and b. -/
def oldRecord : SecretData := setKey (setKey emptyData "a" "1") "b" "2"

/-- Update payload mentioning only key a. -/
def newValues : SecretData := setKey emptyData "a" "3"

/-- Cluster holding one secret cfg in scope user-carol with the old contents. -/
def mergeCluster : Cluster :=
  ⟨fun n => n == "user-carol",
   fun ns n =>
     if ns = "user-carol" ∧ n = "cfg" then some oldRecord else none⟩

/-- The cluster after running UpdateSecret with the partial payload. -/
def mergedCluster : Cluster :=
  match Client.UpdateSecret false false mergeCluster "user-carol" "cfg" newValues with
  | .ok c2 => c2
  | .error _ => mergeCluster

/-- A token manager with a fixed shared key. -/
def theManager : JWTManager := ⟨"server-key", 100⟩

/-- A token signed with HS384 over the same shared key. -/
def hs384Token : Token := signToken .HS384 "server-key" ⟨"alice", 100, 0⟩

/-- A token signed with RS256. -/
def rs256Token : Token := signToken .RS256 "server-key" ⟨"alice", 100, 0⟩

/-- A delete environment where the namespace never disappears. -/
def stuckDeleteWorld : DeleteNsWorld := ⟨false, fun _ => true⟩

/-- A create environment where the namespace already exists but is never in
the active phase. -/
def staleCreateWorld : CreateNsWorld := ⟨true, fun _ => some .terminating⟩

/-- A small concrete operation sequence for the isolation witness. -/
def demoOps : List (SecretOp × (Bool × Bool)) :=
  [(SecretOp.create "k" (setKey emptyData "v" "1"), (false, false)),
   (SecretOp.get "k", (false, false)),
   (SecretOp.update "k" (setKey emptyData "v" "2"), (false, false)),
   (SecretOp.delete "k", (false, false))]

/-! ### Helper lemmas -/

theorem string_data_append (s t : String) : (s ++ t).data = s.data ++ t.data := by
  cases s
  cases t
  rfl

theorem userNs_inj {a b : String} (h : "user-" ++ a = "user-" ++ b) : a = b := by
  have hd : ("user-" ++ a).data = ("user-" ++ b).data := by rw [h]
  rw [string_data_append, string_data_append] at hd
  have h2 : a.data = b.data := List.append_cancel_left hd
  cases a
  cases b
  exact congrArg String.mk h2

theorem setSecret_same (c : Cluster) (ns name : String) (v : Option SecretData) :
    (c.setSecret ns name v).secrets ns name = v := by
  simp [Cluster.setSecret]

theorem setSecret_other (c : Cluster) (ns name : String) (v : Option SecretData)
    (ns2 n2 : String) (h : ¬ (ns2 = ns ∧ n2 = name)) :
    (c.setSecret ns name v).secrets ns2 n2 = c.secrets ns2 n2 := by
  simp only [Cluster.setSecret, if_neg h]

theorem setSecret_nsExists (c : Cluster) (ns name : String)
    (v : Option SecretData) : (c.setSecret ns name v).nsExists = c.nsExists := rfl

theorem runSecretOp_frame (u : String) (op : SecretOp) (f : Bool × Bool)
    (c : Cluster) (ns n : String) (hns : ns ≠ "user-" ++ u) :
    ((runSecretOp u op f c).2).secrets ns n = c.secrets ns n := by
  have hcond : ∀ name : String, ¬ (ns = "user-" ++ u ∧ n = name) :=
    fun name hh => hns hh.1
  obtain ⟨f1, f2⟩ := f
  cases op with
  | create name data =>
      simp only [runSecretOp, SecretsHandler.CreateSecret, Client.CreateSecret]
      cases f1 with
      | true => rfl
      | false =>
          simp only [Bool.false_eq_true, if_false]
          cases hx : c.secrets ("user-" ++ u) name with
          | some d => rfl
          | none => exact setSecret_other c _ _ _ ns n (hcond name)
  | get name =>
      simp only [runSecretOp, SecretsHandler.GetSecret, Client.GetSecret]
      cases f1 with
      | true => rfl
      | false =>
          simp only [Bool.false_eq_true, if_false]
          cases hx : c.secrets ("user-" ++ u) name with
          | some d => rfl
          | none => rfl
  | update name data =>
      simp only [runSecretOp, SecretsHandler.UpdateSecret, Client.UpdateSecret]
      cases f1 with
      | true => rfl
      | false =>
          simp only [Bool.false_eq_true, if_false]
          cases hx : c.secrets ("user-" ++ u) name with
          | none => rfl
          | some old =>
              cases f2 with
              | true => rfl
              | false => exact setSecret_other c _ _ _ ns n (hcond name)
  | delete name =>
      simp only [runSecretOp, SecretsHandler.DeleteSecret, Client.DeleteSecret]
      cases f1 with
      | true => rfl
      | false =>
          simp only [Bool.false_eq_true, if_false]
          cases hx : c.secrets ("user-" ++ u) name with
          | none => rfl
          | some d => exact setSecret_other c _ _ _ ns n (hcond name)

theorem runSecretOp_local (u : String) (op : SecretOp) (f : Bool × Bool)
    (c c2 : Cluster)
    (h : ∀ n, c.secrets ("user-" ++ u) n = c2.secrets ("user-" ++ u) n) :
    (runSecretOp u op f c).1 = (runSecretOp u op f c2).1 ∧
    ∀ n, ((runSecretOp u op f c).2).secrets ("user-" ++ u) n
        = ((runSecretOp u op f c2).2).secrets ("user-" ++ u) n := by
  obtain ⟨f1, f2⟩ := f
  cases op with
  | create name data =>
      simp only [runSecretOp, SecretsHandler.CreateSecret, Client.CreateSecret]
      cases f1 with
      | true => exact ⟨rfl, h⟩
      | false =>
          simp only [Bool.false_eq_true, if_false]
          rw [h name]
          cases hx : c2.secrets ("user-" ++ u) name with
          | some d => exact ⟨rfl, h⟩
          | none =>
              refine ⟨rfl, fun n => ?_⟩
              by_cases hn : n = name <;> simp [Cluster.setSecret, hn, h n]
  | get name =>
      simp only [runSecretOp, SecretsHandler.GetSecret, Client.GetSecret]
      cases f1 with
      | true => exact ⟨rfl, h⟩
      | false =>
          simp only [Bool.false_eq_true, if_false]
          rw [h name]
          cases hx : c2.secrets ("user-" ++ u) name with
          | some d => exact ⟨rfl, h⟩
          | none => exact ⟨rfl, h⟩
  | update name data =>
      simp only [runSecretOp, SecretsHandler.UpdateSecret, Client.UpdateSecret]
      cases f1 with
      | true => exact ⟨rfl, h⟩
      | false =>
          simp only [Bool.false_eq_true, if_false]
          rw [h name]
          cases hx : c2.secrets ("user-" ++ u) name with
          | none => exact ⟨rfl, h⟩
          | some old =>
              cases f2 with
              | true => exact ⟨rfl, h⟩
              | false =>
                  refine ⟨rfl, fun n => ?_⟩
                  by_cases hn : n = name <;> simp [Cluster.setSecret, hn, h n]
  | delete name =>
      simp only [runSecretOp, SecretsHandler.DeleteSecret, Client.DeleteSecret]
      cases f1 with
      | true => exact ⟨rfl, h⟩
      | false =>
          simp only [Bool.false_eq_true, if_false]
          rw [h name]
          cases hx : c2.secrets ("user-" ++ u) name with
          | none => exact ⟨rfl, h⟩
          | some d =>
              refine ⟨rfl, fun n => ?_⟩
              by_cases hn : n = name <;> simp [Cluster.setSecret, hn, h n]

theorem runSecretOps_frame (u : String) (ops : List (SecretOp × (Bool × Bool)))
    (c : Cluster) (ns n : String) (hns : ns ≠ "user-" ++ u) :
    ((runSecretOps u ops c).2).secrets ns n = c.secrets ns n := by
  induction ops generalizing c with
  | nil => rfl
  | cons p rest ih =>
      obtain ⟨op, f⟩ := p
      simp only [runSecretOps]
      rw [ih ((runSecretOp u op f c).2)]
      exact runSecretOp_frame u op f c ns n hns

theorem runSecretOps_local (u : String) (ops : List (SecretOp × (Bool × Bool)))
    (c c2 : Cluster)
    (h : ∀ n, c.secrets ("user-" ++ u) n = c2.secrets ("user-" ++ u) n) :
    (runSecretOps u ops c).1 = (runSecretOps u ops c2).1 := by
  induction ops generalizing c c2 with
  | nil => rfl
  | cons p rest ih =>
      obtain ⟨op, f⟩ := p
      have hstep := runSecretOp_local u op f c c2 h
      simp only [runSecretOps]
      rw [hstep.1, ih ((runSecretOp u op f c).2) ((runSecretOp u op f c2).2) hstep.2]

/-! ### Claim theorems -/

/-- C1: Cross-tenant isolation.  For distinct identities a and b: the scope
names derived as the fixed user prefix plus the identity are distinct (the
mapping is injective); no sequence of secret operations run as a — under any
fault schedule — changes any secret in the scope of b; and the responses of
such a sequence depend only on the secrets in the scope of a, hence never on
a secret of b.  Every handler derives the namespace exclusively from the
verified context username, never from client-supplied input. -/
theorem C1_cross_tenant_isolation (a b : String) (hab : a ≠ b) :
    ("user-" ++ a ≠ "user-" ++ b) ∧
    (∀ ops c n, ((runSecretOps a ops c).2).secrets ("user-" ++ b) n
        = c.secrets ("user-" ++ b) n) ∧
    (∀ ops c c2,
        (∀ n, c.secrets ("user-" ++ a) n = c2.secrets ("user-" ++ a) n) →
        (runSecretOps a ops c).1 = (runSecretOps a ops c2).1) := by
  refine ⟨fun h => hab (userNs_inj h), ?_, ?_⟩
  · intro ops c n
    exact runSecretOps_frame a ops c ("user-" ++ b) n
      (fun h => hab ((userNs_inj h).symm))
  · intro ops c c2 h
    exact runSecretOps_local a ops c c2 h

/-- Witness for C1 at the concrete tenants alice and bob with a concrete
operation sequence over the empty cluster. -/
theorem C1_witness :
    ("user-" ++ "alice" ≠ "user-" ++ "bob") ∧
    ((runSecretOps "alice" demoOps absentCluster).2).secrets ("user-" ++ "bob") "k"
      = absentCluster.secrets ("user-" ++ "bob") "k" :=
  ⟨(C1_cross_tenant_isolation "alice" "bob" (by decide)).1,
   (C1_cross_tenant_isolation "alice" "bob" (by decide)).2.1 demoOps absentCluster "k"⟩

/-- C2 counterexample: the token hs384Token is signed with HS384 — an
algorithm different from the HS256 that Generate uses — over the same shared
key, yet Verify accepts it and returns its claims instead of an error,
because the keyfunc only checks membership in the HMAC family. -/
theorem C2_counterexample :
    hs384Token.alg ≠ Alg.HS256 ∧
    theManager.Verify hs384Token 0 = .ok ⟨"alice", 100, 0⟩ := by
  exact ⟨by decide, rfl⟩

/-- C2 (amended): Verify rejects every token whose header algorithm lies
outside the HMAC family; within the HMAC family the check does not pin the
exact algorithm, so a token signed with HS384 or HS512 under the same key is
accepted. -/
theorem C2_nonHmac_rejected (j : JWTManager) (tok : Token) (now : Nat)
    (h : tok.alg.isHMAC = false) :
    j.Verify tok now = .error .unexpectedSigningMethod := by
  unfold JWTManager.Verify
  rw [h]
  simp

/-- Witness for C2 at the RS256 token. -/
theorem C2_witness :
    Alg.isHMAC rs256Token.alg = false ∧
    theManager.Verify rs256Token 0 = .error .unexpectedSigningMethod :=
  ⟨by decide, C2_nonHmac_rejected theManager rs256Token 0 (by decide)⟩

/-- C3 (code bug relative to the spec): the two authentication-failure paths
of Login return different message bodies — an absent identity yields the body
User does not exist, a wrong password for an existing identity yields
Invalid username or password — so a caller can distinguish the two cases,
contrary to the required indistinguishability property. -/
theorem C3_login_messages_distinguishable :
    UserHandler.Login "bob" "pw" false absentCluster
      = ⟨401, "User does not exist"⟩ ∧
    UserHandler.Login "alice" "wrong" false aliceCluster
      = ⟨401, "Invalid username or password"⟩ ∧
    (UserHandler.Login "bob" "pw" false absentCluster).body
      ≠ (UserHandler.Login "alice" "wrong" false aliceCluster).body := by
  refine ⟨rfl, by decide, by decide⟩

theorem deletePollLoop_stuck (w : DeleteNsWorld) :
    ∀ fuel i, (∀ j, j < i + fuel → w.present j = true) →
    deletePollLoop w i fuel = (.timedOut, i + fuel) := by
  intro fuel
  induction fuel with
  | zero => intro i h; rfl
  | succ fuel ih =>
      intro i h
      have hp : w.present i = true := h i (by omega)
      simp only [deletePollLoop, hp, if_true]
      rw [ih (i + 1) (fun j hj => h j (by omega))]
      congr 1
      omega

/-- C4 counterexample: with a namespace that never disappears,
DeleteNamespace returns the stuck-resource timeout error after exactly the
150 polls of the single 30 second window; no finalizer list is read or
cleared, no forced finalize-update is issued, and no second, longer polling
window is entered before the fatal error — the source contains no such
step, so the error is returned after one window, not two. -/
theorem C4_counterexample :
    Poll.DeleteNamespace stuckDeleteWorld = (.timedOut, 150) := by
  decide

/-- C4 (amended): when the single 30 second polling window (150 polls at a
200 ms interval) elapses without the namespace disappearing, DeleteNamespace
returns the stuck-resource error immediately after that window; the source
performs no finalizer clearing, no forced finalize-update and no second,
longer polling window. -/
theorem C4_single_window (w : DeleteNsWorld) (h1 : w.deleteNotFound = false)
    (h2 : ∀ i, i < 150 → w.present i = true) :
    Poll.DeleteNamespace w = (.timedOut, 150) := by
  unfold Poll.DeleteNamespace
  rw [h1]
  simp only [Bool.false_eq_true, if_false]
  have hst := deletePollLoop_stuck w 150 0 (fun j hj => h2 j (by omega))
  simpa using hst

/-- Witness for C4 at the stuck environment. -/
theorem C4_witness :
    stuckDeleteWorld.deleteNotFound = false ∧
    Poll.DeleteNamespace stuckDeleteWorld = (.timedOut, 150) :=
  ⟨rfl, C4_single_window stuckDeleteWorld rfl (fun _ _ => rfl)⟩

/-- C5 counterexample: the scope user-alice already holds a credentials
record whose stored identity is bob, different from the registering identity
alice; Register then answers with HTTP status 500 — wrapping the backend
AlreadyExists failure of the credentials write — and not with a 409 Conflict
response; no comparison of the stored identity happens anywhere. -/
theorem C5_counterexample :
    bobRecord "username" = some "bob" ∧
    (UserHandler.Register "alice" "pw" false false reusedCluster).1.status = 500 ∧
    (UserHandler.Register "alice" "pw" false false reusedCluster).1.status ≠ 409 := by
  refine ⟨rfl, by decide, by decide⟩

/-- C5 (amended): whenever the derived scope already contains a credentials
record — in particular one whose stored identity differs from the
registering identity — Register fails because the backend refuses the
credentials write with AlreadyExists, surfaced as an HTTP 500 response, and
the registration neither overwrites nor creates any secret.  The source
never compares the stored identity and produces no distinguished Conflict
status. -/
theorem C5_register_existing_record (u pw : String) (c : Cluster)
    (rec : SecretData)
    (hrec : c.secrets ("user-" ++ u) "credentials" = some rec)
    (_hdiff : rec "username" ≠ some u) :
    (UserHandler.Register u pw false false c).1
      = ⟨500, "Failed to store credentials: " ++ errString .alreadyExists⟩ ∧
    ∀ ns n, ((UserHandler.Register u pw false false c).2).secrets ns n
        = c.secrets ns n := by
  cases hx : c.nsExists ("user-" ++ u) with
  | true =>
      simp only [UserHandler.Register, Client.CreateNamespace,
        Client.CreateSecret, Bool.false_eq_true, if_false, hx, if_true, hrec]
      exact ⟨trivial, fun ns n => trivial⟩
  | false =>
      simp only [UserHandler.Register, Client.CreateNamespace,
        Client.CreateSecret, Bool.false_eq_true, if_false, hx, hrec]
      exact ⟨trivial, fun ns n => trivial⟩

/-- Witness for C5 at the concrete reused-scope cluster. -/
theorem C5_witness :
    bobRecord "username" ≠ some "alice" ∧
    (UserHandler.Register "alice" "pw" false false reusedCluster).1
      = ⟨500, "Failed to store credentials: " ++ errString .alreadyExists⟩ :=
  ⟨by decide,
   (C5_register_existing_record "alice" "pw" reusedCluster bobRecord rfl
      (by decide)).1⟩

/-- C6 counterexample: the namespace already exists but is never observed in
the active phase (it is terminating); CreateNamespace nevertheless returns
success immediately with zero status polls, so the operation does not
proceed to poll the scope status until it is active or the timeout
elapses. -/
theorem C6_counterexample :
    Poll.CreateNamespace staleCreateWorld = (.ok, 0) ∧
    staleCreateWorld.phase 0 ≠ some NsPhase.active := by
  exact ⟨rfl, by decide⟩

/-- C6 (amended): when the initial create is refused with AlreadyExists,
CreateNamespace treats it as success and returns at once, performing zero
status polls; hence the second of two consecutive create-scope calls for the
same identity never errors, but it does not await or observe the active
phase. -/
theorem C6_alreadyExists_immediate (w : CreateNsWorld)
    (h : w.alreadyExists = true) :
    Poll.CreateNamespace w = (.ok, 0) := by
  unfold Poll.CreateNamespace
  rw [h]
  simp

/-- Witness for C6 at the stale environment. -/
theorem C6_witness :
    staleCreateWorld.alreadyExists = true ∧
    Poll.CreateNamespace staleCreateWorld = (.ok, 0) :=
  ⟨rfl, C6_alreadyExists_immediate staleCreateWorld rfl⟩

/-- C7 counterexample: a secret holding keys a and b is updated with a
payload containing only key a; a subsequent GetSecret still returns the old
key b with its previous value — the previous contents survive wherever the
payload is silent, which is merge semantics, not full replacement. -/
theorem C7_counterexample :
    Client.GetSecret false mergedCluster "user-carol" "cfg"
      = .ok (mergeStringData oldRecord newValues) ∧
    mergeStringData oldRecord newValues "b" = some "2" ∧
    newValues "b" = none := by
  refine ⟨rfl, rfl, rfl⟩

/-- C7 (amended): UpdateSecret has merge semantics, not full replacement:
the stored result is the previous contents overridden by the update payload,
and every key absent from the payload keeps its previous value, because the
source only sets the stringData field of the fetched object and the API
server merges stringData into the stored data. -/
theorem C7_update_merges (c : Cluster) (ns name : String)
    (old values : SecretData) (h : c.secrets ns name = some old) :
    Client.UpdateSecret false false c ns name values
      = .ok (c.setSecret ns name (some (mergeStringData old values))) ∧
    ∀ k, values k = none → mergeStringData old values k = old k := by
  constructor
  · unfold Client.UpdateSecret
    simp only [Bool.false_eq_true, if_false, h]
  · intro k hk
    unfold mergeStringData
    rw [hk]

/-- Witness for C7 at the concrete merge cluster. -/
theorem C7_witness :
    Client.UpdateSecret false false mergeCluster "user-carol" "cfg" newValues
      = .ok (mergeCluster.setSecret "user-carol" "cfg"
          (some (mergeStringData oldRecord newValues))) ∧
    mergeStringData oldRecord newValues "b" = oldRecord "b" :=
  ⟨(C7_update_merges mergeCluster "user-carol" "cfg" oldRecord newValues rfl).1,
   (C7_update_merges mergeCluster "user-carol" "cfg" oldRecord newValues rfl).2
     "b" rfl⟩

/-- C8: token round-trip: for every key, identity and positive ttl,
verifying a token at the instant it was generated succeeds and returns
claims whose username field is exactly the identity the token was issued
for. -/
theorem C8_roundtrip (key username : String) (ttl now : Nat) (h : 0 < ttl) :
    JWTManager.Verify ⟨key, ttl⟩ (JWTManager.Generate ⟨key, ttl⟩ username now)
        now
      = .ok ⟨username, now + ttl, now⟩ := by
  have hlt : now < now + ttl := by omega
  simp [JWTManager.Verify, JWTManager.Generate, signToken, Alg.isHMAC, hlt]

/-- Witness for C8 at a concrete key, identity, ttl and instant. -/
theorem C8_witness :
    0 < 60 ∧
    JWTManager.Verify ⟨"k", 60⟩ (JWTManager.Generate ⟨"k", 60⟩ "alice" 5) 5
      = .ok ⟨"alice", 5 + 60, 5⟩ :=
  ⟨by decide, C8_roundtrip "k" "alice" 60 5 (by decide)⟩

/-- C9: a successful ChangeUserPassword returns the success response and
updates exactly the credentials record of the caller scope: the new contents
agree with the old record on every key other than password, the password key
now holds the bcrypt digest of the new password, and every other secret of
every scope is untouched. -/
theorem C9_change_password_frame (u newPw : String) (c : Cluster)
    (old : SecretData)
    (hrec : c.secrets ("user-" ++ u) "credentials" = some old)
    (hpw : newPw ≠ "") :
    (UserHandler.ChangeUserPassword u newPw false false false c).1
      = ⟨200, "User details updated successfully"⟩ ∧
    ((UserHandler.ChangeUserPassword u newPw false false false c).2).secrets
        ("user-" ++ u) "credentials"
      = some (mergeStringData old (setKey old "password" (bcryptHash newPw))) ∧
    (∀ k, k ≠ "password" →
      mergeStringData old (setKey old "password" (bcryptHash newPw)) k
        = old k) ∧
    mergeStringData old (setKey old "password" (bcryptHash newPw)) "password"
      = some (bcryptHash newPw) ∧
    (∀ ns n, ¬ (ns = "user-" ++ u ∧ n = "credentials") →
      ((UserHandler.ChangeUserPassword u newPw false false false c).2).secrets
          ns n
        = c.secrets ns n) := by
  have hrun : UserHandler.ChangeUserPassword u newPw false false false c
      = (⟨200, "User details updated successfully"⟩,
         c.setSecret ("user-" ++ u) "credentials"
           (some (mergeStringData old (setKey old "password" (bcryptHash newPw))))) := by
    simp [UserHandler.ChangeUserPassword, Client.GetSecret, Client.UpdateSecret,
      hrec, hpw]
  refine ⟨?_, ?_, ?_, ?_, ?_⟩
  · rw [hrun]
  · rw [hrun]
    exact setSecret_same c ("user-" ++ u) "credentials" _
  · intro k hk
    cases hv : old k <;> simp [mergeStringData, setKey, hk, hv]
  · rfl
  · intro ns n hcond
    rw [hrun]
    exact setSecret_other c ("user-" ++ u) "credentials" _ ns n hcond

/-- Witness for C9 at the registered user alice. -/
theorem C9_witness :
    (UserHandler.ChangeUserPassword "alice" "npw" false false false
        aliceCluster).1
      = ⟨200, "User details updated successfully"⟩ ∧
    mergeStringData aliceRecord (setKey aliceRecord "password" (bcryptHash "npw"))
        "username" = aliceRecord "username" :=
  ⟨(C9_change_password_frame "alice" "npw" aliceCluster aliceRecord rfl
      (by decide)).1,
   (C9_change_password_frame "alice" "npw" aliceCluster aliceRecord rfl
      (by decide)).2.2.1 "username" (by decide)⟩

/-- C10: registration is not atomic on failure: starting from a cluster
where the scope is absent, when the namespace create succeeds and the
subsequent credentials write fails transiently, Register returns an error
response while the newly created namespace remains in existence and holds no
credentials record — no rollback deletion happens. -/
theorem C10_register_not_atomic (u pw : String) (c : Cluster)
    (hns : c.nsExists ("user-" ++ u) = false)
    (hcred : c.secrets ("user-" ++ u) "credentials" = none) :
    (UserHandler.Register u pw false true c).1
      = ⟨500, "Failed to store credentials: " ++ errString .transient⟩ ∧
    ((UserHandler.Register u pw false true c).2).nsExists ("user-" ++ u)
      = true ∧
    ((UserHandler.Register u pw false true c).2).secrets ("user-" ++ u)
        "credentials" = none := by
  refine ⟨?_, ?_, ?_⟩ <;>
    simp [UserHandler.Register, Client.CreateNamespace, Client.CreateSecret,
      hns, hcred]

/-- Witness for C10 at the empty cluster. -/
theorem C10_witness :
    absentCluster.nsExists ("user-" ++ "dave") = false ∧
    ((UserHandler.Register "dave" "pw" false true absentCluster).2).nsExists
        ("user-" ++ "dave") = true :=
  ⟨rfl, (C10_register_not_atomic "dave" "pw" absentCluster rfl rfl).2.1⟩

end SecretsAPI
